import Mathlib

/-!
Shallow embedding of the tradebothub core runtime (Python sources under
`src/bot/`) and proofs about it.  Machine floats are modelled as `ℚ`,
Python ints as `ℤ`/`ℕ`, dictionaries with defaulted lookups as structures
of `Option` fields plus effective-value getters, and fallible code as
results carrying an `Option` error.  External effects (logging, the
reporter RPC, persistence writes) that do not feed back into the modelled
state are noted in comments where they are dropped.
-/

set_option maxRecDepth 4000

/-! ### Character/string helpers (Python `str.lower`, `str.strip`, `in`) -/

/-- True when `needle` occurs at the head of `hay` (character lists). -/
def chListLead : List Char → List Char → Bool
  | [], _ => true
  | _ :: _, [] => false
  | a :: as, b :: bs => a == b && chListLead as bs

/-- True when `needle` occurs as a contiguous run anywhere in `hay`;
this is Python `needle in hay` on strings. -/
def chListSub (needle : List Char) : List Char → Bool
  | [] => chListLead needle []
  | h :: t => chListLead needle (h :: t) || chListSub needle t

/-- Python `needle in hay` for `String`. -/
def strSub (needle hay : String) : Bool :=
  chListSub needle.data hay.data

/-- Python `s.lower()` (ASCII case mapping, which is all the source feeds it). -/
def strLower (s : String) : String :=
  ⟨s.data.map Char.toLower⟩

/-- One whitespace class used by Python `str.strip()`. -/
def isSpaceChar (c : Char) : Bool :=
  c = ' ' || c = '\t' || c = '\n' || c = '\r'

/-- Drop leading whitespace from a character list. -/
def dropLeadSpaces : List Char → List Char
  | [] => []
  | c :: rest => if isSpaceChar c then dropLeadSpaces rest else c :: rest

/-- Python `s.strip()`. -/
def strStrip (s : String) : String :=
  ⟨((dropLeadSpaces s.data.reverse).reverse |> dropLeadSpaces)⟩

/-! ### `bot/health/types.py` — reason codes and exception classification -/

def REASON_CODE_UNKNOWN : String := "UNKNOWN_ERROR"

/-- The `_REASON_PATTERNS` from `bot/health/types.py`, in source order. -/
def REASON_PATTERNS : List (String × String) :=
  [("invalid api", "INVALID_API_KEY"),
   ("invalid key", "INVALID_API_KEY"),
   ("insufficient balance", "INSUFFICIENT_BALANCE"),
   ("insufficient funds", "INSUFFICIENT_BALANCE"),
   ("min notional", "MIN_NOTIONAL"),
   ("min_notional", "MIN_NOTIONAL"),
   ("rate limit", "RATE_LIMIT"),
   ("ratelimit", "RATE_LIMIT"),
   ("ddos", "RATE_LIMIT"),
   ("timeout", "WEBSOCKET_TIMEOUT"),
   ("websocket", "WEBSOCKET_TIMEOUT"),
   ("position mismatch", "POSITION_MISMATCH"),
   ("db timeout", "DB_TIMEOUT"),
   ("db_timeout", "DB_TIMEOUT"),
   ("indicator", "INDICATOR_ERROR")]

/-- First pattern of the list that is a substring of `text`, with its code. -/
def firstPattern : List (String × String) → String → Option String
  | [], _ => none
  | (pat, code) :: rest, text =>
      if strSub pat text then some code else firstPattern rest text

/-- The `map_exception_to_reason` from `bot/health/types.py`; the argument is
`str(exc)` (the exception message). -/
def mapExceptionToReason (msg : String) : String :=
  (firstPattern REASON_PATTERNS (strLower msg)).getD REASON_CODE_UNKNOWN

/-! ### `bot/health/config.py` — flush intervals and timing constants -/

def DEFAULT_TIER : String := "standard"
def ROLLING_WINDOW_SECONDS : ℚ := 15 * 60
def DEBOUNCE_SECONDS : ℚ := 3
def CRITICAL_DELAY_SECONDS : ℚ := 1

/-- Keys of `FLUSH_INTERVALS_OUT_OF_POSITION` (same keys in both tables). -/
def tierKeys : List String := ["fast_5s", "ultra_15s", "fast_30s", "standard"]

/-- The `FLUSH_INTERVALS_OUT_OF_POSITION` as a lookup (dict literal in source). -/
def flushTableOut (tier : String) : ℤ :=
  if tier = "fast_5s" then 60
  else if tier = "ultra_15s" then 90
  else if tier = "fast_30s" then 120
  else 180

/-- The `FLUSH_INTERVALS_IN_POSITION` as a lookup (dict literal in source). -/
def flushTableIn (tier : String) : ℤ :=
  if tier = "fast_5s" then 20
  else if tier = "ultra_15s" then 45
  else if tier = "fast_30s" then 75
  else 150

/-- The `normalize_tier` from `bot/health/config.py`. -/
def normalizeTier (tier : Option String) : String :=
  match tier with
  | none => DEFAULT_TIER
  | some t =>
      if t = "" then DEFAULT_TIER
      else
        let normalized := strLower (strStrip t)
        if normalized ∈ tierKeys then normalized else DEFAULT_TIER

/-- The `get_flush_interval` from `bot/health/config.py`; the two tables map
exactly the normalized tiers, so the `.get` fallback to the standard row
never fires and the table lookups above are total. -/
def getFlushInterval (tier : Option String) (inPosition : Bool) : ℤ :=
  let normalized := normalizeTier tier
  if inPosition then flushTableIn normalized else flushTableOut normalized

/-! ### `bot/health/window.py` — rolling 15-minute counter window -/

/-- The `_HEALTH_KEYS` from `bot/health/window.py`. -/
def healthKeys : List String :=
  ["rate_limit_hit", "candle_gap", "stream_disconnect", "indicator_error",
   "decision", "order_reject", "db_error"]

/-- The `_prune_bucket`: pop from the deque front while the front is older than
`cutoff`.  Note it stops at the first element that is not older. -/
def pruneBucket (cutoff : ℚ) : List ℚ → List ℚ
  | [] => []
  | t :: rest => if t < cutoff then pruneBucket cutoff rest else t :: rest

/-- Body of `HealthWindow.inc` on one bucket: append the timestamp, then
prune with `now` equal to that timestamp. -/
def incBucket (b : List ℚ) (ts : ℚ) : List ℚ :=
  pruneBucket (ts - ROLLING_WINDOW_SECONDS) (b ++ [ts])

/-- Body of `HealthWindow.count15m` on one bucket: prune at the query time,
then take the length. -/
def countBucket (b : List ℚ) (now : ℚ) : ℕ :=
  (pruneBucket (now - ROLLING_WINDOW_SECONDS) b).length

/-- Association-list lookup mirroring `self._buckets[key]` access guarded by
`key in self._buckets`. -/
def lookupBucket : List (String × List ℚ) → String → Option (List ℚ)
  | [], _ => none
  | (k, b) :: rest, key => if k = key then some b else lookupBucket rest key

/-- Replace the bucket stored under `key` (no-op when absent). -/
def setBucket : List (String × List ℚ) → String → List ℚ → List (String × List ℚ)
  | [], _, _ => []
  | (k, b) :: rest, key, newB =>
      if k = key then (k, newB) :: rest else (k, b) :: setBucket rest key newB

/-- The `HealthWindow`: one timestamp deque per tracked key. -/
structure HealthWindow where
  buckets : List (String × List ℚ)
deriving DecidableEq

/-- The `HealthWindow.__init__`: one empty deque per key of `_HEALTH_KEYS`. -/
def HealthWindow.empty : HealthWindow :=
  ⟨healthKeys.map fun k => (k, [])⟩

/-- The `HealthWindow.inc(key, timestamp)`: unknown keys are ignored; otherwise
append the timestamp to the bucket and prune it. -/
def HealthWindow.inc (w : HealthWindow) (key : String) (ts : ℚ) : HealthWindow :=
  match lookupBucket w.buckets key with
  | none => w
  | some b => ⟨setBucket w.buckets key (incBucket b ts)⟩

/-- The `HealthWindow.count15m(key, now)`: unknown keys count zero; otherwise
prune at `now` and return the bucket length (the persisted pruning does not
change the returned count, which is what we model). -/
def HealthWindow.count15m (w : HealthWindow) (key : String) (now : ℚ) : ℕ :=
  match lookupBucket w.buckets key with
  | none => 0
  | some b => countBucket b now

/-! ### `bot/health/reporter.py` — flush claim protocol (debounce) -/

/-- The reporter fields that drive the flush-claim decision.  The pending
patch and the rolling window feed only the flush payload, not the
accept/decline decision, so they are kept out of this state. -/
structure ReporterState where
  tier : String := DEFAULT_TIER
  inPosition : Bool := false
  lastFlushTs : ℚ := 0
  scheduledFlushTs : ℚ := 0
  scheduledReason : Option String := none
deriving DecidableEq

/-- Python `a or b` on an optional string: `None` and `""` fall through. -/
def pyOrStr (a : Option String) (b : String) : String :=
  match a with
  | none => b
  | some s => if s = "" then b else s

/-- The `HealthReporter._claim_flush(reason, force)` at monotonic time `now`:
returns the adopted reason when the flush is accepted, `none` when
declined, together with the updated reporter fields.  Source truthiness:
`self._scheduled_flush_ts` is falsy exactly when it is `0.0`. -/
def claimFlush (now : ℚ) (reason : String) (force : Bool) (s : ReporterState) :
    Option String × ReporterState :=
  let interval : ℚ := (getFlushInterval (some s.tier) s.inPosition : ℤ)
  let due := now - s.lastFlushTs
  if s.scheduledFlushTs ≠ 0 ∧ now < s.scheduledFlushTs ∧ force = false then
    (none, s)
  else
    let adopted :=
      if s.scheduledFlushTs ≠ 0 ∧ s.scheduledFlushTs ≤ now then
        (pyOrStr s.scheduledReason reason,
         { s with scheduledFlushTs := 0, scheduledReason := none })
      else (reason, s)
    let reason := adopted.1
    let s := adopted.2
    if force then
      if due < DEBOUNCE_SECONDS then (none, s) else (some reason, s)
    else
      if due < max DEBOUNCE_SECONDS interval then (none, s) else (some reason, s)

/-- The `HealthReporter.flush_now(reason)`: try to claim with `force=True`; on
decline, schedule a deferred flush at
`max(last_flush + DEBOUNCE, now + CRITICAL_DELAY)` (monotone in any
already-scheduled time) and return without flushing.  The boolean reports
whether a flush was claimed (the RPC itself is external). -/
def flushNow (now : ℚ) (reason : String) (s : ReporterState) : Bool × ReporterState :=
  match claimFlush now reason true s with
  | (some _, s1) => (true, s1)
  | (none, s1) =>
      let nextDue := max (s1.lastFlushTs + DEBOUNCE_SECONDS) (now + CRITICAL_DELAY_SECONDS)
      (false, { s1 with scheduledFlushTs := max s1.scheduledFlushTs nextDue,
                        scheduledReason := some reason })

/-- The `HealthReporter._execute_flush` on RPC success, which stamps the flush
time; on failure the state is left alone. -/
def applyFlushSuccess (t : ℚ) (s : ReporterState) : ReporterState :=
  { s with lastFlushTs := t }

/-! ### `bot/trading/sizing.py` -/

/-- The `compute_notional(balance_quote, allocation_frac, leverage)`. -/
def computeNotional (balanceQuote allocationFrac leverage : ℚ) : ℚ :=
  balanceQuote * allocationFrac * leverage

/-- The `compute_qty(notional, price)`: zero when the price is not positive. -/
def computeQty (notional price : ℚ) : ℚ :=
  if 0 < price then notional / price else 0

/-! ### Strategy configuration dictionary (`ctx.strategy_config`) -/

/-- The `strategy_config` keys the position manager reads, as optional
entries; the getters below apply the `dict.get` defaults from the source. -/
structure StrategyCfg where
  slAtrMult : Option ℚ := none
  tpAtrMult : Option ℚ := none
  trailAtrMult : Option ℚ := none
  trailStartR : Option ℚ := none
  minBars : Option ℤ := none
  pyramidingEnabled : Option Bool := none
  maxPyramidLevels : Option ℤ := none
  pyramidStep : Option ℚ := none
  pyramidAddFrac : Option ℚ := none
deriving DecidableEq

def StrategyCfg.slMult (c : StrategyCfg) : ℚ := c.slAtrMult.getD (3 / 2)
def StrategyCfg.tpMult (c : StrategyCfg) : ℚ := c.tpAtrMult.getD (7 / 2)
def StrategyCfg.trailMult (c : StrategyCfg) : ℚ := c.trailAtrMult.getD (3 / 2)
def StrategyCfg.trailStart (c : StrategyCfg) : ℚ := c.trailStartR.getD 1
def StrategyCfg.minBarsEff (c : StrategyCfg) : ℤ := c.minBars.getD 500
def StrategyCfg.pyrEnabled (c : StrategyCfg) : Bool := c.pyramidingEnabled.getD false
def StrategyCfg.maxLevelsEff (c : StrategyCfg) : ℤ := c.maxPyramidLevels.getD 0
def StrategyCfg.stepEff (c : StrategyCfg) : ℚ := c.pyramidStep.getD (1 / 100)
def StrategyCfg.addFracEff (c : StrategyCfg) : ℚ := c.pyramidAddFrac.getD (1 / 2)

/-! ### `bot/trading/pyramiding.py` -/

/-- The `maybe_pyramid(cfg, move, added_levels)`. -/
def maybePyramid (cfg : StrategyCfg) (move : ℚ) (addedLevels : ℤ) : Bool :=
  if cfg.pyrEnabled = false then false
  else if cfg.maxLevelsEff ≤ addedLevels then false
  else decide (((addedLevels : ℚ) + 1) * cfg.stepEff ≤ move)

/-- The `pyramid_add_notional(base_notional, cfg)`. -/
def pyramidAddNotional (baseNotional : ℚ) (cfg : StrategyCfg) : ℚ :=
  baseNotional * cfg.addFracEff

/-! ### `bot/state.py` — `PositionState` -/

/-- The `PositionState` dataclass with its source defaults; `week_trade_counts`
is an association list standing for the Python dict. -/
structure PositionState where
  in_position : Bool := false
  position_id : String := ""
  direction : String := ""
  entry_price : ℚ := 0
  entry_time : String := ""
  qty : ℚ := 0
  base_notional : ℚ := 0
  peak_price : ℚ := 0
  low_price : ℚ := 0
  added_levels : ℤ := 0
  week_trade_counts : List (String × ℤ) := []
  last_exit_time : String := ""
  last_candle_time : String := ""
  cumulative_pnl : ℚ := 0
  max_unrealized_pnl : ℚ := 0
  min_unrealized_pnl : ℚ := 0
  last_price : ℚ := 0
  unrealized_pnl : ℚ := 0
  stop_price : ℚ := 0
  take_profit_price : ℚ := 0
  trailing_stop_price : ℚ := 0
  trailing_active : Bool := false
  atr : ℚ := 0
  last_manage_time : String := ""
  heartbeat_at : String := ""
deriving DecidableEq

/-- Lookup in the week-counts dict. -/
def lookupCount : List (String × ℤ) → String → Option ℤ
  | [], _ => none
  | (k, n) :: rest, key => if k = key then some n else lookupCount rest key

/-- Python `dict.setdefault(key, 0)` on the week-counts dict. -/
def setdefaultCount (counts : List (String × ℤ)) (key : String) : List (String × ℤ) :=
  match lookupCount counts key with
  | some _ => counts
  | none => counts ++ [(key, 0)]

/-- The `counts[key] += 1` (the key is always present when the source does this). -/
def bumpCount : List (String × ℤ) → String → List (String × ℤ)
  | [], _ => []
  | (k, n) :: rest, key =>
      if k = key then (k, n + 1) :: rest else (k, n) :: bumpCount rest key

/-- The spec invariant on `PositionState`:
`in_position ⇒ qty > 0 ∧ entry_price > 0 ∧ position_id ≠ ∅ ∧ direction ∈ {long, short}`. -/
def stateInvariant (s : PositionState) : Prop :=
  s.in_position = true →
    0 < s.qty ∧ 0 < s.entry_price ∧ s.position_id ≠ "" ∧
      (s.direction = "long" ∨ s.direction = "short")

instance (s : PositionState) : Decidable (stateInvariant s) := by
  unfold stateInvariant; infer_instance

/-! ### `bot/trading/exits.py` — `atr_exit_reason` -/

/-- The `atr_exit_reason(state, price, atr, cfg)`.  The source mutates
`state.peak_price` / `state.low_price` while probing the trailing stop, so
the updated state is returned alongside the reason.  The two direction
blocks are sequential `if` statements in the source; as `direction` cannot
equal both strings, the `else if` chain here is equivalent. -/
def atrExitReason (st : PositionState) (price atr : ℚ) (cfg : StrategyCfg) :
    Option String × PositionState :=
  if atr ≤ 0 then (none, st)
  else
    let sl := cfg.slMult * atr
    let tp := cfg.tpMult * atr
    let trail := cfg.trailMult * atr
    let entry := st.entry_price
    if st.direction = "long" then
      let diff := price - entry
      if tp ≤ diff then (some "TP_ATR", st)
      else if diff ≤ -sl then (some "SL_ATR", st)
      else if cfg.trailStart * sl ≤ diff then
        let st1 := { st with peak_price := max st.peak_price price }
        if price ≤ st1.peak_price - trail then (some "TRAIL_ATR", st1) else (none, st1)
      else (none, st)
    else if st.direction = "short" then
      let diff := entry - price
      if tp ≤ diff then (some "TP_ATR", st)
      else if diff ≤ -sl then (some "SL_ATR", st)
      else if cfg.trailStart * sl ≤ diff then
        let st1 := { st with low_price := min st.low_price price }
        if st1.low_price + trail ≤ price then (some "TRAIL_ATR", st1) else (none, st1)
      else (none, st)
    else (none, st)

/-- Stop-loss condition of claim C6: price moved against entry by at least
`sl_atr_mult × atr` for the current direction. -/
def slCondition (st : PositionState) (price atr : ℚ) (cfg : StrategyCfg) : Prop :=
  (if st.direction = "long" then price - st.entry_price else st.entry_price - price)
    ≤ -(cfg.slMult * atr)

/-- The take-profit condition: price moved in favor by at least
`tp_atr_mult × atr` for the current direction. -/
def tpCondition (st : PositionState) (price atr : ℚ) (cfg : StrategyCfg) : Prop :=
  cfg.tpMult * atr ≤
    (if st.direction = "long" then price - st.entry_price else st.entry_price - price)

/-! ### `bot/trading/orders.py` — `send_order` with the slippage guard -/

/-- Python `a or b or c` over the ticker fields: `None` and `0.0` fall
through, mirroring `float(ticker.get("last") or ticker.get("close") or
expected_price)`. -/
def tickerLive (last close : Option ℚ) (expected : ℚ) : ℚ :=
  match last with
  | some v => if v = 0 then (match close with
      | some w => if w = 0 then expected else w
      | none => expected) else v
  | none => match close with
      | some w => if w = 0 then expected else w
      | none => expected

/-- The `_bps_diff(a, b)`. -/
def bpsDiff (a b : ℚ) : ℚ :=
  if b ≤ 0 then 0 else |a - b| / b * 10000

/-- Environment of one `send_order` call: the ticker answer, whether
`create_order` succeeds, the id the exchange reports, the minted client
order id, and the decimal renderings Python would use in the guard
f-string (float formatting is outside the model). -/
structure SendEnv where
  tickerLast : Option ℚ := none
  tickerClose : Option ℚ := none
  createOk : Bool := true
  createErrMsg : String := "create failed"
  orderId : Option String := none
  clientId : String := "cid"
  liveR : String := ""
  expectedR : String := ""
  slipR : String := ""
  maxR : String := ""
deriving DecidableEq

/-- Observable outcome of one `send_order` call.  `submitted` lists orders
that went out (dry-run log or successful `create_order`); `createCalls`
lists every invocation of `exchange.create_order`; `submits`, `acks` and
`rejects` are the reporter records; `err` is the re-raised exception
message. -/
structure SendResult where
  order : Option (Option String) := none
  clientOrderId : String := ""
  submitted : List (String × ℚ) := []
  createCalls : List (String × ℚ) := []
  submits : ℕ := 0
  acks : ℕ := 0
  rejects : List String := []
  err : Option String := none
deriving DecidableEq

/-- The guard message
`f"Slippage guard: live={live} expected={expected_price} slip={slip:.1f}bps > {max_slippage_bps}bps"`
assembled from the rendered number strings. -/
def slipGuardMsg (e : SendEnv) : String :=
  "Slippage guard: live=" ++ e.liveR ++ " expected=" ++ e.expectedR ++
    " slip=" ++ e.slipR ++ "bps > " ++ e.maxR ++ "bps"

/-- The `send_order(ctx, exchange, symbol, side, qty, dry_run, expected_price,
max_slippage_bps)`.  `log_order_submission` and the logging calls are
persistence/observability only and are dropped; the reporter records are
kept as counters. -/
def sendOrder (e : SendEnv) (side : String) (qty : ℚ) (dryRun : Bool)
    (expectedPrice : ℚ) (maxSlippageBps : Option ℤ) : SendResult :=
  if qty ≤ 0 then { order := none, clientOrderId := "" }
  else
    let cid := e.clientId
    if dryRun then
      { order := none, clientOrderId := cid, submitted := [(side, qty)], submits := 1 }
    else
      let live := tickerLive e.tickerLast e.tickerClose expectedPrice
      let slip := bpsDiff live expectedPrice
      match maxSlippageBps with
      | some maxBps =>
          if (maxBps : ℚ) < slip then
            let msg := slipGuardMsg e
            { clientOrderId := cid, submits := 1,
              rejects := [mapExceptionToReason msg], err := some msg }
          else if e.createOk then
            { order := some e.orderId, clientOrderId := cid,
              submitted := [(side, qty)], createCalls := [(side, qty)],
              submits := 1, acks := 1 }
          else
            { clientOrderId := cid, createCalls := [(side, qty)], submits := 1,
              rejects := [mapExceptionToReason e.createErrMsg],
              err := some e.createErrMsg }
      | none =>
          if e.createOk then
            { order := some e.orderId, clientOrderId := cid,
              submitted := [(side, qty)], createCalls := [(side, qty)],
              submits := 1, acks := 1 }
          else
            { clientOrderId := cid, createCalls := [(side, qty)], submits := 1,
              rejects := [mapExceptionToReason e.createErrMsg],
              err := some e.createErrMsg }

/-- Modelled from the spec: `get_exchange_order_id` is imported by
`bot/trading/position.py` from `bot/trading/orders.py` but its definition is
not in the provided sources; per spec §4.4 the created order surfaces its
exchange `id`, which for a dry-run `None` order is absent. -/
def getExchangeOrderId (order : Option (Option String)) : Option String :=
  match order with
  | none => none
  | some oid => oid

/-! ### `bot/trading/position.py` — position manager -/

/-- Python-level exceptions the position manager can exit with. -/
inductive PyErr where
  | unboundLocal : PyErr
  | zeroDivision : PyErr
  | exn : String → PyErr
deriving DecidableEq

/-- Outcome of one position-manager entry point: the module-global `STATE`
after the call (mutations survive a raise), the orders that went out, the
number of pyramiding loop iterations entered, and the exception if one
propagated. -/
structure StepResult where
  state : PositionState
  orders : List (String × ℚ) := []
  iters : ℕ := 0
  err : Option PyErr := none
deriving DecidableEq

/-- The `risk_config` entries `try_open_position` indexes directly
(`KeyError`-free in the source contract, so plain fields). -/
structure RiskCfg where
  maxTradesPerWeek : ℤ := 30
  allocationFrac : ℚ := 1 / 2
  leverage : ℚ := 3
  minNotionalUsd : ℚ := 15
deriving DecidableEq

/-- External inputs of one `try_open_position` call: fetched frame shape,
strategy answers, balance, configs, and the failure points of the fallible
calls (each `some msg` means that call raised with that message). -/
structure EntryEnv where
  ohlcvErr : Option String := none
  prepareErr : Option String := none
  dfLen : ℕ := 0
  lastIso : String := ""
  weekKey : String := ""
  close : ℚ := 0
  longErr : Option String := none
  longOk : Bool := false
  shortErr : Option String := none
  shortOk : Bool := false
  balanceErr : Option String := none
  balance : ℚ := 0
  scfg : StrategyCfg := {}
  rcfg : RiskCfg := {}
  maxSlippageBps : Option ℤ := none
  dryRunFlag : Bool := false
  mode : String := "live"
  send : SendEnv := {}
deriving DecidableEq

/-- The `_dry_run(ctx)`: `bool(ctx.dry_run) or (ctx.mode == "paper")`. -/
def EntryEnv.dryRun (e : EntryEnv) : Bool :=
  e.dryRunFlag || e.mode == "paper"

/-- The `execution_config.get("max_slippage_bps", 20)` as the source reads it. -/
def EntryEnv.slipBps (e : EntryEnv) : ℤ :=
  e.maxSlippageBps.getD 20

/-- The `try_open_position(ctx, strategy)` acting on the module-global `STATE`.
Reporter records, logging and `upsert_state` persistence are observational
and dropped; every mutation of `STATE` and every order path is kept in
source order.  The final entry path mirrors the source exactly: line 306
sets `in_position = True`, and the `on_entry` call at lines 308–317 then
evaluates the keyword argument `entry_order_id` — a local that is only
assigned on line 318 — so Python raises `UnboundLocalError` there before
`on_entry` runs, and lines 318–337 are unreachable. -/
def tryOpenPosition (env : EntryEnv) (st : PositionState) : StepResult :=
  if st.in_position then { state := st }
  else match env.ohlcvErr with
  | some m => { state := st, err := some (.exn m) }
  | none => match env.prepareErr with
  | some m => { state := st, err := some (.exn m) }
  | none =>
  if (env.dfLen : ℤ) < env.scfg.minBarsEff then { state := st }
  else if st.last_candle_time = env.lastIso then { state := st }
  else
    let st := { st with last_candle_time := env.lastIso }
    let st := { st with week_trade_counts := setdefaultCount st.week_trade_counts env.weekKey }
    if env.rcfg.maxTradesPerWeek ≤ (lookupCount st.week_trade_counts env.weekKey).getD 0 then
      { state := st }
    else match env.longErr with
    | some m => { state := st, err := some (.exn m) }
    | none => match env.shortErr with
    | some m => { state := st, err := some (.exn m) }
    | none =>
    if env.longOk = false ∧ env.shortOk = false then { state := st }
    else
      let price := env.close
      match env.balanceErr with
      | some m => { state := st, err := some (.exn m) }
      | none =>
        let notional := computeNotional env.balance env.rcfg.allocationFrac env.rcfg.leverage
        if notional < env.rcfg.minNotionalUsd then { state := st }
        else
          let qty := computeQty notional price
          let orderSide := if env.longOk then "buy" else "sell"
          let st := { st with direction := if env.longOk then "long" else "short" }
          let sr := sendOrder env.send orderSide qty env.dryRun price (some env.slipBps)
          match sr.err with
          | some m => { state := st, orders := sr.submitted, err := some (.exn m) }
          | none =>
            let st := { st with in_position := true }
            { state := st, orders := sr.submitted, err := some .unboundLocal }

/-- A true `maybe_pyramid` implies the level cap is not yet reached. -/
theorem maybePyramid_lt_max {cfg : StrategyCfg} {move : ℚ} {a : ℤ}
    (h : maybePyramid cfg move a = true) : a < cfg.maxLevelsEff := by
  unfold maybePyramid at h
  split_ifs at h with h1 h2
  · omega

/-- External inputs of one `manage_open_position` call, analogous to
`EntryEnv`; `send` is reused for every `send_order` of the tick (the ticker
and exchange answers are modelled as stable within one tick). -/
structure ManageEnv where
  priceErr : Option String := none
  price : ℚ := 0
  ohlcvErr : Option String := none
  prepareErr : Option String := none
  rowClose : ℚ := 0
  atr : ℚ := 0
  scfg : StrategyCfg := {}
  maxSlippageBps : Option ℤ := none
  dryRunFlag : Bool := false
  mode : String := "live"
  send : SendEnv := {}
  exitTime : String := ""
  onExitErr : Option String := none
  onPyramidErr : Option String := none
deriving DecidableEq

/-- The `_dry_run(ctx)` for the manage tick. -/
def ManageEnv.dryRun (e : ManageEnv) : Bool :=
  e.dryRunFlag || e.mode == "paper"

/-- The `execution_config.get("max_slippage_bps", 20)` for the manage tick. -/
def ManageEnv.slipBps (e : ManageEnv) : ℤ :=
  e.maxSlippageBps.getD 20

/-- The `while maybe_pyramid(...)` loop of `manage_open_position`
(lines 173–195): submit the add-on order, grow `qty`, bump `added_levels`,
journal (`on_pyramid` may raise), repeat.  `move` and the prices are fixed
for the whole tick, exactly as in the source.  `n` counts loop entries. -/
def pyramidLoop (env : ManageEnv) (move price : ℚ) (st : PositionState)
    (acc : List (String × ℚ)) (n : ℕ) : StepResult :=
  if h : maybePyramid env.scfg move st.added_levels then
    let addNotional := pyramidAddNotional st.base_notional env.scfg
    let addQty := computeQty addNotional price
    let side := if st.direction = "long" then "buy" else "sell"
    let sr := sendOrder env.send side addQty env.dryRun env.rowClose (some env.slipBps)
    match sr.err with
    | some m => { state := st, orders := acc ++ sr.submitted, iters := n + 1,
                  err := some (.exn m) }
    | none =>
        let st1 := { st with qty := st.qty + addQty, added_levels := st.added_levels + 1 }
        match env.onPyramidErr with
        | some m => { state := st1, orders := acc ++ sr.submitted, iters := n + 1,
                      err := some (.exn m) }
        | none => pyramidLoop env move price st1 (acc ++ sr.submitted) (n + 1)
  else { state := st, orders := acc, iters := n }
termination_by (env.scfg.maxLevelsEff - st.added_levels).toNat
decreasing_by
  have hlt := maybePyramid_lt_max h
  simp_wf
  omega

/-- The `manage_open_position(ctx, strategy)` acting on the module-global
`STATE`.  Reporter records, logging, `upsert_state` and
`update_trade_status` are observational and dropped; all `STATE` mutations,
the exit path and the pyramiding loop are kept in source order. -/
def manageOpenPosition (env : ManageEnv) (st : PositionState) : StepResult :=
  if st.in_position = false then { state := st }
  else match env.priceErr with
  | some m => { state := st, err := some (.exn m) }
  | none => match env.ohlcvErr with
  | some m => { state := st, err := some (.exn m) }
  | none => match env.prepareErr with
  | some m => { state := st, err := some (.exn m) }
  | none =>
    let price := env.price
    let atr := env.atr
    let unreal := (price - st.entry_price) * st.qty *
      (if st.direction = "long" then 1 else -1)
    let st := { st with
      max_unrealized_pnl := max st.max_unrealized_pnl unreal,
      min_unrealized_pnl := min st.min_unrealized_pnl unreal,
      last_price := price, unrealized_pnl := unreal, atr := atr }
    let slMult := env.scfg.slMult
    let tpMult := env.scfg.tpMult
    let trailMult := env.scfg.trailMult
    let trailStartR := env.scfg.trailStart
    let st :=
      if st.direction = "long" then
        let sl := slMult * atr
        let tp := tpMult * atr
        let st := { st with stop_price := st.entry_price - sl,
                            take_profit_price := st.entry_price + tp,
                            peak_price := max st.peak_price price,
                            trailing_active := decide (trailStartR * sl ≤ unreal) }
        if st.trailing_active then
          { st with trailing_stop_price := st.peak_price - trailMult * atr }
        else st
      else if st.direction = "short" then
        let sl := slMult * atr
        let tp := tpMult * atr
        let st := { st with stop_price := st.entry_price + sl,
                            take_profit_price := st.entry_price - tp,
                            low_price := min st.low_price price,
                            trailing_active := decide (trailStartR * sl ≤ unreal) }
        if st.trailing_active then
          { st with trailing_stop_price := st.low_price + trailMult * atr }
        else st
      else st
    let probed := atrExitReason st price atr env.scfg
    let st := probed.2
    match probed.1 with
    | some _ =>
        let pnl := (price - st.entry_price) * st.qty *
          (if st.direction = "long" then 1 else -1)
        let closeSide := if st.direction = "long" then "sell" else "buy"
        let sr := sendOrder env.send closeSide st.qty env.dryRun env.rowClose
          (some env.slipBps)
        match sr.err with
        | some m => { state := st, orders := sr.submitted, err := some (.exn m) }
        | none =>
          match env.onExitErr with
          | some m => { state := st, orders := sr.submitted, err := some (.exn m) }
          | none =>
            let st := { st with cumulative_pnl := st.cumulative_pnl + pnl,
                                last_exit_time := env.exitTime }
            let fresh : PositionState :=
              { in_position := false,
                week_trade_counts := st.week_trade_counts,
                last_candle_time := st.last_candle_time,
                cumulative_pnl := st.cumulative_pnl,
                last_exit_time := st.last_exit_time,
                last_manage_time := env.exitTime }
            { state := fresh, orders := sr.submitted }
    | none =>
        if st.entry_price = 0 then { state := st, err := some .zeroDivision }
        else
          let move := if st.direction = "long"
            then (price - st.entry_price) / st.entry_price
            else (st.entry_price - price) / st.entry_price
          pyramidLoop env move price st [] 0

/-! ### `bot/runtime/loop.py` — `run_loop` tick behaviour -/

/-- The `BotState` from `bot/runtime/loop.py`. -/
inductive BotState where
  | init | idle | waitingForEntry | inPosition | cooldown | halt
deriving DecidableEq

/-- The loop variables that persist across ticks and matter to error
handling: `consec_errors` and `state`. -/
structure LoopState where
  consecErrors : ℕ
  state : BotState
deriving DecidableEq

/-- The state-specific action a tick runs to completion. -/
inductive BotAction where
  | manageAct | tryOpenAct | idleManageAct
deriving DecidableEq

/-- External inputs of one tick of the `while True` body. -/
structure TickEnv where
  syncRaises : Bool := false
  refreshDue : Bool := false
  subscriptionActive : Bool := true
  pauseReason : Option String := none
  tradingEnabled : Bool := true
  inPosBefore : Bool := false
  inPosAfter : Bool := false
  actionRaises : Bool := false
deriving DecidableEq

/-- Outcome of one tick: whether `run_loop` returned (or re-raised), the
terminal event kind if any, the loop variables for the next tick, and the
state action that ran to completion (none when it raised or none ran). -/
structure TickResult where
  exited : Bool
  exitKind : Option String
  ls : LoopState
  action : Option BotAction
deriving DecidableEq

/-- One iteration of the `while True` body of `run_loop`.
`maxConsecErrors` stands for `MAX_CONSECUTIVE_ERRORS` (imported from
`bot.core.safety`, not in the provided sources; the spec gives 5 as its
example value).  Heartbeats, pings, logging and the reporter records are
observational and dropped; the control-refresh subscription exit, the HALT
check, the pause override, the state dispatch and the `except` branch are
kept in source order (lines 116–242). -/
def loopTick (maxConsecErrors : ℕ) (env : TickEnv) (ls : LoopState) : TickResult :=
  if env.syncRaises then
    { exited := true, exitKind := some "exchange_sync", ls := ls, action := none }
  else if env.refreshDue ∧ env.subscriptionActive = false then
    { exited := true, exitKind := some "stopped_payment", ls := ls, action := none }
  else if ls.state = .halt then
    { exited := true, exitKind := some "halt", ls := ls, action := none }
  else
    let paused := env.pauseReason.isSome ∨ env.tradingEnabled = false
    let st1 := if paused then BotState.idle else ls.state
    let dispatched : Option BotAction × BotState :=
      match st1 with
      | .init => (none, if paused then .idle
                        else if env.inPosBefore then .inPosition else .waitingForEntry)
      | .idle => (if env.inPosBefore then some .idleManageAct else none,
                  if paused then .idle
                  else if env.inPosAfter then .inPosition else .waitingForEntry)
      | .waitingForEntry => (some .tryOpenAct,
                  if env.inPosAfter then .inPosition else .waitingForEntry)
      | .inPosition => (some .manageAct,
                  if env.inPosAfter then .inPosition else .cooldown)
      | .cooldown => (none, .waitingForEntry)
      | .halt => (none, .halt)
    if dispatched.1.isSome ∧ env.actionRaises then
      let consec := ls.consecErrors + 1
      if maxConsecErrors ≤ consec then
        { exited := true, exitKind := some "stopped", ls := { consecErrors := consec, state := st1 },
          action := none }
      else
        { exited := false, exitKind := none,
          ls := { consecErrors := consec, state := .halt }, action := none }
    else
      { exited := false, exitKind := none,
        ls := { consecErrors := 0, state := dispatched.2 }, action := dispatched.1 }

/-! ## Claims -/

/-- Claim C9: `maybe_pyramid(cfg, move, added_levels)` is true iff
pyramiding is enabled, `added_levels < max_pyramid_levels`, and
`move ≥ (added_levels + 1) × pyramid_step`; and
`pyramid_add_notional(base_notional, cfg) = base_notional × pyramid_add_frac`. -/
theorem c9_pyramiding_rules (cfg : StrategyCfg) (move : ℚ) (a : ℤ) (b : ℚ) :
    (maybePyramid cfg move a = true ↔
      (cfg.pyrEnabled = true ∧ a < cfg.maxLevelsEff ∧ ((a : ℚ) + 1) * cfg.stepEff ≤ move))
    ∧ pyramidAddNotional b cfg = b * cfg.addFracEff := by
  refine ⟨?_, rfl⟩
  unfold maybePyramid
  split_ifs with h1 h2
  · simp [h1]
  · have : ¬ a < cfg.maxLevelsEff := by omega
    simp [this]
  · have hen : cfg.pyrEnabled = true := by
      revert h1; cases cfg.pyrEnabled <;> simp
    have hlt : a < cfg.maxLevelsEff := by omega
    simp [hen, hlt]

/-- Claim C5: in a live `send_order` call with a positive expected price,
if the relative slippage of the fetched live price exceeds
`max_slippage_bps`, then `exchange.create_order` is never invoked and no
order is sent. -/
theorem c5_slippage_guard_blocks_create (e : SendEnv) (side : String)
    (qty expectedPrice : ℚ) (maxBps : ℤ)
    (hexp : 0 < expectedPrice)
    (hslip : (maxBps : ℚ) <
      |tickerLive e.tickerLast e.tickerClose expectedPrice - expectedPrice| /
        expectedPrice * 10000) :
    (sendOrder e side qty false expectedPrice (some maxBps)).createCalls = []
    ∧ (sendOrder e side qty false expectedPrice (some maxBps)).order = none := by
  have hguard : (maxBps : ℚ) <
      bpsDiff (tickerLive e.tickerLast e.tickerClose expectedPrice) expectedPrice := by
    unfold bpsDiff
    rw [if_neg (not_le.mpr hexp)]
    exact hslip
  unfold sendOrder
  rcases le_or_lt qty 0 with hq | hq
  · rw [if_pos hq]
    exact ⟨rfl, rfl⟩
  · rw [if_neg (not_le.mpr hq)]
    refine ⟨?_, ?_⟩ <;> simp [hguard]

/-- Witness for C5 at the spec scenario S2: `live=108`, `expected=102`,
`max_slippage_bps=100`, so the slippage is `10000/17 ≈ 588 bps`. -/
theorem c5_witness :
    (sendOrder { tickerLast := some 108 } "buy" 1 false 102 (some 100)).createCalls = []
    ∧ (sendOrder { tickerLast := some 108 } "buy" 1 false 102 (some 100)).order = none :=
  c5_slippage_guard_blocks_create { tickerLast := some 108 } "buy" 1 102 100
    (by norm_num) (by norm_num [tickerLive])

/-- Claim C6 (amended): `atr_exit_reason` returns at most one reason, but
the source checks take-profit before stop-loss; whenever the stop-loss
condition holds and the take-profit condition does not (which is always the
case when `sl_atr_mult + tp_atr_mult > 0`, in particular for positive
multipliers), the returned reason is `SL_ATR`. -/
theorem c6_sl_before_tp_amended (st : PositionState) (price atr : ℚ)
    (cfg : StrategyCfg) (hatr : 0 < atr)
    (hdir : st.direction = "long" ∨ st.direction = "short")
    (hsl : slCondition st price atr cfg)
    (htp : ¬ tpCondition st price atr cfg) :
    (atrExitReason st price atr cfg).1 = some "SL_ATR" := by
  unfold slCondition at hsl
  unfold tpCondition at htp
  unfold atrExitReason
  rw [if_neg (not_le.mpr hatr)]
  rcases hdir with h | h
  · rw [h] at hsl htp
    simp only [if_pos] at hsl htp
    rw [if_pos h, if_neg htp, if_pos hsl]
  · have hne : st.direction ≠ "long" := by rw [h]; decide
    rw [h] at hsl htp
    rw [if_neg (by simp : ¬ ("short" : String) = "long")] at hsl htp
    rw [if_neg hne, if_pos h, if_neg htp, if_pos hsl]

/-- Witness for C6 at spec scenario S3: long at entry 100, `atr=2`,
default multipliers, price 96: moved against by 4 ≥ 3, not in favor, so
`SL_ATR` fires. -/
theorem c6_witness :
    (atrExitReason { direction := "long", entry_price := 100 } 96 2 {}).1
      = some "SL_ATR" :=
  c6_sl_before_tp_amended { direction := "long", entry_price := 100 } 96 2 {}
    (by norm_num) (Or.inl rfl)
    (by norm_num [slCondition, StrategyCfg.slMult])
    (by norm_num [tpCondition, StrategyCfg.tpMult])

/-- Counterexample for C6 as stated: with `sl_atr_mult=1`, `tp_atr_mult=-2`
(the source never clamps these), long entry 100, price 99, `atr=1`, the
stop-loss condition holds (`-1 ≤ -1`) yet the source returns `TP_ATR`
because it checks take-profit first (`-1 ≥ -2`). -/
theorem c6_counterexample :
    slCondition { direction := "long", entry_price := 100 } 99 1
        { slAtrMult := some 1, tpAtrMult := some (-2) }
    ∧ (atrExitReason { direction := "long", entry_price := 100 } 99 1
        { slAtrMult := some 1, tpAtrMult := some (-2) }).1 = some "TP_ATR" := by
  constructor
  · norm_num [slCondition, StrategyCfg.slMult]
  · norm_num [atrExitReason, StrategyCfg.slMult, StrategyCfg.tpMult,
      StrategyCfg.trailMult, StrategyCfg.trailStart]

/-- Claim C3 (code bug): with `MAX_CONSECUTIVE_ERRORS = 5` (the spec
example), a tick whose state action raises a generic exception leaves
`consec_errors = 1 < 5` but sets the state machine to `HALT`; the next,
otherwise benign tick then exits `run_loop` at the `state == HALT` check
without re-entering any state action, contradicting the claimed retry. -/
theorem c3_error_tick_halts_loop :
    (loopTick 5 { actionRaises := true } ⟨0, .waitingForEntry⟩).exited = false
    ∧ (loopTick 5 { actionRaises := true } ⟨0, .waitingForEntry⟩).ls
        = ⟨1, .halt⟩
    ∧ (loopTick 5 {} ⟨1, .halt⟩).exited = true
    ∧ (loopTick 5 {} ⟨1, .halt⟩).action = none := by
  refine ⟨?_, ?_, ?_, ?_⟩ <;> decide

/-- Entry environment for the happy entry path (spec scenario S1 with a
balance of 204 so that `qty = 1` exactly): new bar, long signal, week cap
free, `notional = 204 × 0.5 × 1 = 102 ≥ 10`, dry-run submission. -/
def entryEnvS1 : EntryEnv :=
  { dfLen := 600, lastIso := "2024-01-01T02:00:00+00:00", weekKey := "2024-1",
    close := 102, longOk := true, balance := 204,
    scfg := { minBars := some 3 },
    rcfg := { maxTradesPerWeek := 5, allocationFrac := 1 / 2, leverage := 1,
              minNotionalUsd := 10 },
    dryRunFlag := true }

/-- Claim C1 (code bug): on the happy entry path the order is submitted and
`in_position` is set, but the call then raises `UnboundLocalError`
(`entry_order_id` is read at `position.py:314` before its assignment at
line 318), so it never completes: `position_id` stays empty, `qty` and
`entry_price` stay 0, and the week counter is left at its `setdefault`
value 0 instead of 1. -/
theorem c1_entry_raises_unbound_local :
    (tryOpenPosition entryEnvS1 {}).err = some .unboundLocal
    ∧ (tryOpenPosition entryEnvS1 {}).orders = [("buy", 1)]
    ∧ (tryOpenPosition entryEnvS1 {}).state.in_position = true
    ∧ (tryOpenPosition entryEnvS1 {}).state.direction = "long"
    ∧ (tryOpenPosition entryEnvS1 {}).state.position_id = ""
    ∧ (tryOpenPosition entryEnvS1 {}).state.qty = 0
    ∧ (tryOpenPosition entryEnvS1 {}).state.entry_price = 0
    ∧ lookupCount (tryOpenPosition entryEnvS1 {}).state.week_trade_counts "2024-1"
        = some 0 := by
  have hval : tryOpenPosition entryEnvS1 {} =
      { state := { in_position := true, direction := "long",
                   last_candle_time := "2024-01-01T02:00:00+00:00",
                   week_trade_counts := [("2024-1", 0)] },
        orders := [("buy", 1)], err := some .unboundLocal } := by
    norm_num [tryOpenPosition, entryEnvS1, sendOrder, computeNotional, computeQty,
      setdefaultCount, lookupCount, StrategyCfg.minBarsEff, EntryEnv.dryRun,
      EntryEnv.slipBps]
    decide
  rw [hval]
  norm_num [lookupCount]

/-- Entry environment for the invariant counterexample: same happy entry
path with a 300 quote balance (`notional = 150`, `qty = 150/102`). -/
def entryEnvC2 : EntryEnv :=
  { dfLen := 600, lastIso := "2024-01-08T02:00:00+00:00", weekKey := "2024-2",
    close := 102, longOk := true, balance := 300,
    scfg := { minBars := some 3 },
    rcfg := { maxTradesPerWeek := 5, allocationFrac := 1 / 2, leverage := 1,
              minNotionalUsd := 10 },
    dryRunFlag := true }

/-- Counterexample for C2 as stated: `try_open_position` exits by raising
(`UnboundLocalError` between `in_position = True` and the field
assignments), and the state it leaves behind has `in_position = true` with
`qty = 0`, `entry_price = 0` and an empty `position_id` — the invariant is
violated on an exceptional exit. -/
theorem c2_counterexample :
    (tryOpenPosition entryEnvC2 {}).err ≠ none
    ∧ (tryOpenPosition entryEnvC2 {}).state.in_position = true
    ∧ ¬ stateInvariant (tryOpenPosition entryEnvC2 {}).state := by
  have hval : tryOpenPosition entryEnvC2 {} =
      { state := { in_position := true, direction := "long",
                   last_candle_time := "2024-01-08T02:00:00+00:00",
                   week_trade_counts := [("2024-2", 0)] },
        orders := [("buy", 25 / 17)], err := some .unboundLocal } := by
    norm_num [tryOpenPosition, entryEnvC2, sendOrder, computeNotional, computeQty,
      setdefaultCount, lookupCount, StrategyCfg.minBarsEff, EntryEnv.dryRun,
      EntryEnv.slipBps]
    decide
  rw [hval]
  refine ⟨by simp, rfl, fun hinv => ?_⟩
  have h0 := (hinv rfl).1
  norm_num at h0

/-- Field-transfer principle for the invariant. -/
theorem stateInvariant_of_fields {s t : PositionState} (h : stateInvariant s)
    (h1 : t.in_position = s.in_position) (h2 : t.qty = s.qty)
    (h3 : t.entry_price = s.entry_price) (h4 : t.position_id = s.position_id)
    (h5 : t.direction = s.direction) : stateInvariant t := by
  intro hp
  rw [h1] at hp
  rw [h2, h3, h4, h5]
  exact h hp

/-- The `atr_exit_reason` only ever touches `peak_price` / `low_price`, so it
preserves the invariant. -/
theorem atrExitReason_invariant {st : PositionState} (price atr : ℚ)
    (cfg : StrategyCfg) (h : stateInvariant st) :
    stateInvariant (atrExitReason st price atr cfg).2 := by
  unfold atrExitReason
  dsimp only
  split_ifs <;> exact h

/-- The `atr_exit_reason` leaves `base_notional` unchanged. -/
theorem atrExitReason_base (st : PositionState) (price atr : ℚ)
    (cfg : StrategyCfg) :
    (atrExitReason st price atr cfg).2.base_notional = st.base_notional := by
  unfold atrExitReason
  dsimp only
  split_ifs <;> rfl

/-- The `compute_qty` of a nonnegative notional is nonnegative. -/
theorem computeQty_nonneg {notional : ℚ} (price : ℚ) (h : 0 ≤ notional) :
    0 ≤ computeQty notional price := by
  unfold computeQty
  split_ifs with hp
  · exact div_nonneg h hp.le
  · exact le_refl 0

/-- One pyramiding add-on quantity is nonnegative when `base_notional` and
`pyramid_add_frac` are. -/
theorem pyramidAddQty_nonneg (scfg : StrategyCfg) (base price : ℚ)
    (hbase : 0 ≤ base) (hfrac : 0 ≤ scfg.addFracEff) :
    0 ≤ computeQty (pyramidAddNotional base scfg) price :=
  computeQty_nonneg price (mul_nonneg hbase hfrac)

/-- The pyramiding loop preserves the invariant: each iteration only grows
`qty` by a nonnegative add-on quantity and bumps `added_levels`. -/
theorem pyramidLoop_invariant (env : ManageEnv) (move price : ℚ) :
    ∀ (k : ℕ) (st : PositionState) (acc : List (String × ℚ)) (n : ℕ),
      (env.scfg.maxLevelsEff - st.added_levels).toNat = k →
      stateInvariant st → 0 ≤ st.base_notional → 0 ≤ env.scfg.addFracEff →
      stateInvariant (pyramidLoop env move price st acc n).state := by
  intro k
  induction k using Nat.strong_induction_on with
  | _ k ih =>
    intro st acc n hk hinv hbase hfrac
    by_cases hcond : maybePyramid env.scfg move st.added_levels = true
    · rw [pyramidLoop, dif_pos hcond]
      dsimp only
      rcases hsr : (sendOrder env.send (if st.direction = "long" then "buy" else "sell")
          (computeQty (pyramidAddNotional st.base_notional env.scfg) price)
          env.dryRun env.rowClose (some env.slipBps)).err with _ | m
      · simp only [hsr]
        rcases hpe : env.onPyramidErr with _ | m2
        · simp only [hpe]
          have hlt := maybePyramid_lt_max hcond
          have hq := pyramidAddQty_nonneg env.scfg st.base_notional price hbase hfrac
          have hinv1 : stateInvariant { st with
              qty := st.qty + computeQty (pyramidAddNotional st.base_notional env.scfg) price,
              added_levels := st.added_levels + 1 } := by
            intro hp
            obtain ⟨h1, h2, h3, h4⟩ := hinv hp
            exact ⟨by positivity, h2, h3, h4⟩
          exact ih ((env.scfg.maxLevelsEff - (st.added_levels + 1)).toNat)
            (by omega) _ _ _ rfl hinv1 hbase hfrac
        · simp only [hpe]
          intro hp
          obtain ⟨h1, h2, h3, h4⟩ := hinv hp
          have hq := pyramidAddQty_nonneg env.scfg st.base_notional price hbase hfrac
          exact ⟨by positivity, h2, h3, h4⟩
      · simp only [hsr]
        exact hinv
    · rw [pyramidLoop, dif_neg hcond]
      exact hinv

/-- Every normal (non-raising) exit of `try_open_position` leaves the
invariant intact: such exits are exactly the skip paths, which only touch
`last_candle_time`, `week_trade_counts` and (before the order) `direction`
while `in_position` stays false-or-unchanged. -/
theorem tryOpenPosition_ok_invariant (env : EntryEnv) (st : PositionState)
    (hinv : stateInvariant st) (hok : (tryOpenPosition env st).err = none) :
    stateInvariant (tryOpenPosition env st).state := by
  have H : ∀ r : StepResult, tryOpenPosition env st = r → r.err = none →
      stateInvariant r.state := by
    intro r heq hok2
    unfold tryOpenPosition at heq
    repeat' (first
      | (split at heq)
      | (dsimp only at heq))
    all_goals subst heq
    all_goals try exact hinv
    all_goals simp at hok2
  exact H _ rfl hok

set_option maxHeartbeats 1000000

/-- The `manage_open_position` preserves the invariant on every exit, normal or
exceptional: mid-tick mutations never touch the invariant fields except to
grow `qty` (pyramiding) or to reset to a clean flat state (exit path).
`base_notional` and `pyramid_add_frac` are nonnegative in any state the
entry path can produce (`notional ≥ min_notional_usd ≥ 0` at entry). -/
theorem manageOpenPosition_invariant (env : ManageEnv) (st : PositionState)
    (hinv : stateInvariant st) (hbase : 0 ≤ st.base_notional)
    (hfrac : 0 ≤ env.scfg.addFracEff) :
    stateInvariant (manageOpenPosition env st).state := by
  unfold manageOpenPosition
  repeat' (first
    | split
    | dsimp only)
  all_goals first
    | exact pyramidLoop_invariant env _ _ _ _ _ _ rfl
        (atrExitReason_invariant _ _ _ hinv)
        (by rw [atrExitReason_base]; exact hbase) hfrac
    | exact atrExitReason_invariant _ _ _ hinv
    | (intro hp; simp at hp; done)
    | exact hinv

set_option maxHeartbeats 400000

/-- Claim C2 (amended): the invariant is preserved by every
`manage_open_position` call (normal or exceptional exit; `base_notional`
and `pyramid_add_frac` nonnegative as every entry produces) and by every
normal completion of `try_open_position`; the counterexample shows it is
violated when `try_open_position` raises after setting `in_position`. -/
theorem c2_invariant_amended :
    (∀ (env : ManageEnv) (st : PositionState),
        stateInvariant st → 0 ≤ st.base_notional → 0 ≤ env.scfg.addFracEff →
        stateInvariant (manageOpenPosition env st).state)
    ∧ (∀ (env : EntryEnv) (st : PositionState),
        stateInvariant st → (tryOpenPosition env st).err = none →
        stateInvariant (tryOpenPosition env st).state) :=
  ⟨manageOpenPosition_invariant, tryOpenPosition_ok_invariant⟩

/-- Witness for the amended C2 at the flat default state and environments. -/
theorem c2_amended_witness :
    stateInvariant (manageOpenPosition {} {}).state
    ∧ stateInvariant (tryOpenPosition {} {}).state :=
  ⟨c2_invariant_amended.1 {} {} (by decide) (by norm_num)
      (by norm_num [StrategyCfg.addFracEff]),
   c2_invariant_amended.2 {} {} (by decide) (by decide)⟩

/-- Claim C10: the pyramiding while-loop terminates (it is a well-founded
recursion on `max_pyramid_levels − added_levels` in this embedding) and,
starting from `added_levels = a ≤ M = max_pyramid_levels`, enters its body
at most `M − a` times and never pushes `added_levels` beyond `M`. -/
theorem c10_pyramid_loop_bound (env : ManageEnv) (move price : ℚ) :
    ∀ (st : PositionState) (acc : List (String × ℚ)) (n : ℕ),
      st.added_levels ≤ env.scfg.maxLevelsEff →
      (pyramidLoop env move price st acc n).state.added_levels ≤ env.scfg.maxLevelsEff
      ∧ (pyramidLoop env move price st acc n).iters
          ≤ n + (env.scfg.maxLevelsEff - st.added_levels).toNat := by
  suffices H : ∀ (k : ℕ) (st : PositionState) (acc : List (String × ℚ)) (n : ℕ),
      (env.scfg.maxLevelsEff - st.added_levels).toNat = k →
      st.added_levels ≤ env.scfg.maxLevelsEff →
      (pyramidLoop env move price st acc n).state.added_levels ≤ env.scfg.maxLevelsEff
      ∧ (pyramidLoop env move price st acc n).iters
          ≤ n + (env.scfg.maxLevelsEff - st.added_levels).toNat by
    exact fun st acc n h => H _ st acc n rfl h
  intro k
  induction k using Nat.strong_induction_on with
  | _ k ih =>
    intro st acc n hk hle
    by_cases hcond : maybePyramid env.scfg move st.added_levels = true
    · have hlt := maybePyramid_lt_max hcond
      rw [pyramidLoop, dif_pos hcond]
      dsimp only
      rcases hsr : (sendOrder env.send (if st.direction = "long" then "buy" else "sell")
          (computeQty (pyramidAddNotional st.base_notional env.scfg) price)
          env.dryRun env.rowClose (some env.slipBps)).err with _ | m
      · simp only [hsr]
        rcases hpe : env.onPyramidErr with _ | m2
        · simp only [hpe]
          have hrec := ih ((env.scfg.maxLevelsEff - (st.added_levels + 1)).toNat)
            (by omega)
            { st with
              qty := st.qty + computeQty (pyramidAddNotional st.base_notional env.scfg) price,
              added_levels := st.added_levels + 1 }
            (acc ++ (sendOrder env.send (if st.direction = "long" then "buy" else "sell")
              (computeQty (pyramidAddNotional st.base_notional env.scfg) price)
              env.dryRun env.rowClose (some env.slipBps)).submitted)
            (n + 1) rfl
            (by show st.added_levels + 1 ≤ env.scfg.maxLevelsEff; omega)
          refine ⟨hrec.1, ?_⟩
          have h2 : (pyramidLoop env move price
              { st with
                qty := st.qty + computeQty (pyramidAddNotional st.base_notional env.scfg) price,
                added_levels := st.added_levels + 1 }
              (acc ++ (sendOrder env.send (if st.direction = "long" then "buy" else "sell")
                (computeQty (pyramidAddNotional st.base_notional env.scfg) price)
                env.dryRun env.rowClose (some env.slipBps)).submitted)
              (n + 1)).iters
              ≤ (n + 1) + (env.scfg.maxLevelsEff - (st.added_levels + 1)).toNat := hrec.2
          omega
        · simp only [hpe]
          refine ⟨?_, ?_⟩
          · show st.added_levels + 1 ≤ env.scfg.maxLevelsEff
            omega
          · show n + 1 ≤ n + (env.scfg.maxLevelsEff - st.added_levels).toNat
            omega
      · simp only [hsr]
        refine ⟨?_, ?_⟩
        · show st.added_levels ≤ env.scfg.maxLevelsEff
          exact hle
        · show n + 1 ≤ n + (env.scfg.maxLevelsEff - st.added_levels).toNat
          omega
    · rw [pyramidLoop, dif_neg hcond]
      refine ⟨?_, ?_⟩
      · show st.added_levels ≤ env.scfg.maxLevelsEff
        exact hle
      · show n ≤ n + (env.scfg.maxLevelsEff - st.added_levels).toNat
        omega

/-- Witness for C10: pyramiding enabled with `M = 2`, step `0.01`,
`move = 0.05`, starting at level 0: the loop adds exactly twice. -/
theorem c10_witness :
    (pyramidLoop
        { scfg := { pyramidingEnabled := some true, maxPyramidLevels := some 2 },
          dryRunFlag := true, price := 103, rowClose := 103 }
        (5 / 100) 103
        { in_position := true, direction := "long", entry_price := 100, qty := 1,
          base_notional := 100 } [] 0).state.added_levels
      ≤ StrategyCfg.maxLevelsEff
          { pyramidingEnabled := some true, maxPyramidLevels := some 2 }
    ∧ (pyramidLoop
        { scfg := { pyramidingEnabled := some true, maxPyramidLevels := some 2 },
          dryRunFlag := true, price := 103, rowClose := 103 }
        (5 / 100) 103
        { in_position := true, direction := "long", entry_price := 100, qty := 1,
          base_notional := 100 } [] 0).iters
      ≤ 0 + (StrategyCfg.maxLevelsEff
          { pyramidingEnabled := some true, maxPyramidLevels := some 2 }
          - (0 : ℤ)).toNat := by
  have h := c10_pyramid_loop_bound
    { scfg := { pyramidingEnabled := some true, maxPyramidLevels := some 2 },
      dryRunFlag := true, price := 103, rowClose := 103 }
    (5 / 100) 103
    { in_position := true, direction := "long", entry_price := 100, qty := 1,
      base_notional := 100 } [] 0
    (by norm_num [StrategyCfg.maxLevelsEff])
  exact h

/-- Send environment of spec scenario S2: live ticker 108 against expected
102, with the exact decimal renderings Python produces in the guard
message (`f"{108.0}" = "108.0"`, `f"{588.235…:.1f}" = "588.2"`). -/
def sendEnvS2 : SendEnv :=
  { tickerLast := some 108, liveR := "108.0", expectedR := "102.0",
    slipR := "588.2", maxR := "100" }

/-- Claim C4 (amended): when the slippage guard declines a live order, the
reporter records exactly one order rejection, but its reason code is the
substring classification of the guard message — which matches no pattern in
`_REASON_PATTERNS` and therefore yields `UNKNOWN_ERROR`, not a
`SLIPPAGE_GUARD` code (no such code exists in the source taxonomy). -/
theorem c4_slippage_reject_reason_amended (qty : ℚ) (hq : 0 < qty) :
    (sendOrder sendEnvS2 "buy" qty false 102 (some 100)).rejects
        = [mapExceptionToReason (slipGuardMsg sendEnvS2)]
    ∧ mapExceptionToReason (slipGuardMsg sendEnvS2) = "UNKNOWN_ERROR"
    ∧ (sendOrder sendEnvS2 "buy" qty false 102 (some 100)).createCalls = []
    ∧ (sendOrder sendEnvS2 "buy" qty false 102 (some 100)).err
        = some (slipGuardMsg sendEnvS2) := by
  have hguard : ((100 : ℤ) : ℚ) <
      bpsDiff (tickerLive sendEnvS2.tickerLast sendEnvS2.tickerClose 102) 102 := by
    norm_num [bpsDiff, tickerLive, sendEnvS2]
  have hred : sendOrder sendEnvS2 "buy" qty false 102 (some 100) =
      { clientOrderId := sendEnvS2.clientId, submits := 1,
        rejects := [mapExceptionToReason (slipGuardMsg sendEnvS2)],
        err := some (slipGuardMsg sendEnvS2) } := by
    unfold sendOrder
    rw [if_neg (not_le.mpr hq)]
    simp [hguard]
    intro h
    push_cast at hguard
    linarith
  rw [hred]
  refine ⟨rfl, ?_, rfl, rfl⟩
  decide

/-- Witness for the amended C4 at `qty = 1`. -/
theorem c4_witness :
    (sendOrder sendEnvS2 "buy" 1 false 102 (some 100)).rejects
        = [mapExceptionToReason (slipGuardMsg sendEnvS2)]
    ∧ mapExceptionToReason (slipGuardMsg sendEnvS2) = "UNKNOWN_ERROR"
    ∧ (sendOrder sendEnvS2 "buy" 1 false 102 (some 100)).createCalls = []
    ∧ (sendOrder sendEnvS2 "buy" 1 false 102 (some 100)).err
        = some (slipGuardMsg sendEnvS2) :=
  c4_slippage_reject_reason_amended 1 (by norm_num)

/-- Counterexample for C4 as stated: at spec scenario S2 (`qty = 0.5`), the
guard declines the order and the reporter records a rejection, but the
reason code is `UNKNOWN_ERROR`, not `SLIPPAGE_GUARD`. -/
theorem c4_counterexample :
    (sendOrder sendEnvS2 "buy" (1 / 2) false 102 (some 100)).createCalls = []
    ∧ (sendOrder sendEnvS2 "buy" (1 / 2) false 102 (some 100)).rejects
        = ["UNKNOWN_ERROR"]
    ∧ ("UNKNOWN_ERROR" : String) ≠ "SLIPPAGE_GUARD" := by
  have hguard : ((100 : ℤ) : ℚ) <
      bpsDiff (tickerLive sendEnvS2.tickerLast sendEnvS2.tickerClose 102) 102 := by
    norm_num [bpsDiff, tickerLive, sendEnvS2]
  have hred : sendOrder sendEnvS2 "buy" (1 / 2) false 102 (some 100) =
      { clientOrderId := sendEnvS2.clientId, submits := 1,
        rejects := [mapExceptionToReason (slipGuardMsg sendEnvS2)],
        err := some (slipGuardMsg sendEnvS2) } := by
    unfold sendOrder
    rw [if_neg (by norm_num : ¬ (1 / 2 : ℚ) ≤ 0)]
    simp [hguard]
    intro h
    push_cast at hguard
    linarith
  rw [hred]
  refine ⟨rfl, ?_, by decide⟩
  show [mapExceptionToReason (slipGuardMsg sendEnvS2)] = ["UNKNOWN_ERROR"]
  decide

/-- The `_claim_flush` declines whenever the elapsed time since the last flush
is below the effective threshold (and below `DEBOUNCE` when forced). -/
theorem claimFlush_declines (s : ReporterState) (now : ℚ) (reason : String)
    (force : Bool)
    (h : now - s.lastFlushTs
      < max DEBOUNCE_SECONDS ((getFlushInterval (some s.tier) s.inPosition : ℤ) : ℚ))
    (hforce : force = true → now - s.lastFlushTs < DEBOUNCE_SECONDS) :
    (claimFlush now reason force s).1 = none := by
  unfold claimFlush
  dsimp only
  split_ifs with h1 h2 h3 <;> first
    | rfl
    | (exact absurd (hforce h2) h3)
    | (exact absurd h h3)

/-- Claim C7: after a successful flush at monotonic time `t` under tier `T`
and in-position flag `P`, no non-forced flush is accepted before
`t + flush_interval(T, P)` (nor before `t + DEBOUNCE`), no forced flush is
accepted before `t + DEBOUNCE`, and a forced `flush_now` arriving earlier
declines and schedules a deferred flush at
`max(t + DEBOUNCE, now + CRITICAL_DELAY)` (given no earlier deferral is
already pending). -/
theorem c7_reporter_debounce (s : ReporterState) (t now : ℚ) (reason : String)
    (hlast : s.lastFlushTs = t) (ht : 0 ≤ t) :
    (now < t + ((getFlushInterval (some s.tier) s.inPosition : ℤ) : ℚ) →
      (claimFlush now reason false s).1 = none)
    ∧ (now < t + DEBOUNCE_SECONDS → (claimFlush now reason false s).1 = none)
    ∧ (now < t + DEBOUNCE_SECONDS → (claimFlush now reason true s).1 = none)
    ∧ (now < t + DEBOUNCE_SECONDS → s.scheduledFlushTs = 0 →
        (flushNow now reason s).1 = false
        ∧ (flushNow now reason s).2.scheduledFlushTs
            = max (t + DEBOUNCE_SECONDS) (now + CRITICAL_DELAY_SECONDS)) := by
  refine ⟨?_, ?_, ?_, ?_⟩
  · intro hnow
    refine claimFlush_declines s now reason false ?_ (by simp)
    rw [hlast]
    calc now - t < (getFlushInterval (some s.tier) s.inPosition : ℤ) := by linarith
      _ ≤ max DEBOUNCE_SECONDS ((getFlushInterval (some s.tier) s.inPosition : ℤ) : ℚ) :=
        le_max_right _ _
  · intro hnow
    refine claimFlush_declines s now reason false ?_ (by simp)
    rw [hlast]
    calc now - t < DEBOUNCE_SECONDS := by linarith
      _ ≤ max DEBOUNCE_SECONDS ((getFlushInterval (some s.tier) s.inPosition : ℤ) : ℚ) :=
        le_max_left _ _
  · intro hnow
    refine claimFlush_declines s now reason true ?_ (fun _ => by rw [hlast]; linarith)
    rw [hlast]
    calc now - t < DEBOUNCE_SECONDS := by linarith
      _ ≤ max DEBOUNCE_SECONDS ((getFlushInterval (some s.tier) s.inPosition : ℤ) : ℚ) :=
        le_max_left _ _
  · intro hnow hsched
    have hcf : claimFlush now reason true s = (none, s) := by
      unfold claimFlush
      dsimp only
      rw [if_neg (by simp [hsched]),
          if_neg (by simp [hsched] : ¬ (s.scheduledFlushTs ≠ 0 ∧ s.scheduledFlushTs ≤ now)),
          if_pos (by rw [hlast]; linarith : now - s.lastFlushTs < DEBOUNCE_SECONDS)]
      rfl
    unfold flushNow
    rw [hcf]
    dsimp only
    refine ⟨rfl, ?_⟩
    rw [hsched, hlast]
    have hdeb : (0 : ℚ) ≤ DEBOUNCE_SECONDS := by norm_num [DEBOUNCE_SECONDS]
    exact max_eq_right (le_trans (by linarith) (le_max_left _ _))

/-- Witness for C7: standard tier out of position (interval 180), last
flush at `t = 10`, a flush attempt at `now = 11 < 13 = t + DEBOUNCE`. -/
theorem c7_witness :
    ((claimFlush 11 "r" false { tier := "standard", lastFlushTs := 10 }).1 = none)
    ∧ ((claimFlush 11 "r" true { tier := "standard", lastFlushTs := 10 }).1 = none)
    ∧ ((flushNow 11 "r" { tier := "standard", lastFlushTs := 10 }).1 = false)
    ∧ ((flushNow 11 "r" { tier := "standard", lastFlushTs := 10 }).2.scheduledFlushTs
        = max ((10 : ℚ) + DEBOUNCE_SECONDS) ((11 : ℚ) + CRITICAL_DELAY_SECONDS)) := by
  have hZ : getFlushInterval (some "standard") false = 180 := by decide
  have h := c7_reporter_debounce { tier := "standard", lastFlushTs := 10 } 10 11 "r"
    rfl (by norm_num)
  exact ⟨h.1 (by norm_num [hZ]),
         h.2.2.1 (by norm_num [DEBOUNCE_SECONDS]),
         (h.2.2.2 (by norm_num [DEBOUNCE_SECONDS]) rfl).1,
         (h.2.2.2 (by norm_num [DEBOUNCE_SECONDS]) rfl).2⟩

/-- The `Sorted (· ≤ ·)` splits over append (specialization of
`List.pairwise_append`). -/
theorem sortedLeAppend {l1 l2 : List ℚ} :
    (l1 ++ l2).Sorted (· ≤ ·) ↔
      l1.Sorted (· ≤ ·) ∧ l2.Sorted (· ≤ ·) ∧ ∀ a ∈ l1, ∀ b ∈ l2, a ≤ b :=
  List.pairwise_append

/-- On a sorted bucket, popping stale entries from the front is exactly
filtering out everything below the cutoff. -/
theorem pruneBucket_sorted (c : ℚ) :
    ∀ b : List ℚ, b.Sorted (· ≤ ·) →
      pruneBucket c b = b.filter fun u => decide (c ≤ u) := by
  intro b
  induction b with
  | nil => intro _; rfl
  | cons t rest ih =>
    intro hs
    rw [List.sorted_cons] at hs
    obtain ⟨hall, hrest⟩ := hs
    unfold pruneBucket
    rw [List.filter_cons]
    by_cases hlt : t < c
    · rw [if_pos hlt, ih hrest]
      have hd : (decide (c ≤ t)) = false := by simp [not_le.mpr hlt]
      rw [hd]
      simp
    · rw [if_neg hlt]
      have hct : c ≤ t := not_lt.mp hlt
      have hd : (decide (c ≤ t)) = true := by simp [hct]
      rw [hd]
      simp only [if_true]
      congr 1
      exact (List.filter_eq_self.mpr fun x hx => by
        simp [le_trans hct (hall x hx)]).symm

/-- Elements surviving a prune come from the original bucket. -/
theorem pruneBucket_subset (c : ℚ) :
    ∀ b : List ℚ, ∀ x ∈ pruneBucket c b, x ∈ b := by
  intro b
  induction b with
  | nil => intro x hx; simp [pruneBucket] at hx
  | cons t rest ih =>
    intro x hx
    unfold pruneBucket at hx
    by_cases hlt : t < c
    · rw [if_pos hlt] at hx
      exact List.mem_cons_of_mem t (ih x hx)
    · rw [if_neg hlt] at hx
      exact hx

/-- Composing two low-cutoff filters keeps only the stricter one. -/
theorem filter_cutoff_comp {c1 c2 : ℚ} (h : c1 ≤ c2) (l : List ℚ) :
    (l.filter fun u => decide (c1 ≤ u)).filter (fun u => decide (c2 ≤ u))
      = l.filter fun u => decide (c2 ≤ u) := by
  rw [List.filter_filter]
  apply List.filter_congr
  intro u _
  by_cases h2 : c2 ≤ u
  · simp [h2, le_trans h h2]
  · simp [h2]

/-- Folding `inc` over a sorted timestamp sequence keeps the bucket sorted,
keeps it inside the original events, and makes a final prune at any query
time `now` past the last event agree with plain filtering of the whole
sequence at cutoff `now − 900`. -/
theorem foldInc_spec : ∀ tss : List ℚ, tss.Sorted (· ≤ ·) →
    (tss.foldl incBucket []).Sorted (· ≤ ·)
    ∧ (∀ x ∈ tss.foldl incBucket [], x ∈ tss)
    ∧ ∀ now : ℚ, (∀ u ∈ tss, u ≤ now) →
        pruneBucket (now - ROLLING_WINDOW_SECONDS) (tss.foldl incBucket [])
          = tss.filter fun u => decide (now - ROLLING_WINDOW_SECONDS ≤ u) := by
  intro tss
  induction tss using List.reverseRecOn with
  | nil =>
    intro _
    exact ⟨List.sorted_nil, by simp, fun now _ => rfl⟩
  | append_singleton ds t ih =>
    intro hs
    obtain ⟨hds, -, hle2⟩ := sortedLeAppend.mp hs
    have hle : ∀ x ∈ ds, x ≤ t := fun x hx => hle2 x hx t (by simp)
    obtain ⟨ihSorted, ihMem, ihPrune⟩ := ih hds
    have hfold : (ds ++ [t]).foldl incBucket []
        = incBucket (ds.foldl incBucket []) t := by
      rw [List.foldl_append]
      rfl
    have hBle : ∀ x ∈ ds.foldl incBucket [], x ≤ t :=
      fun x hx => hle x (ihMem x hx)
    have hBt : ((ds.foldl incBucket []) ++ [t]).Sorted (· ≤ ·) := by
      rw [sortedLeAppend]
      exact ⟨ihSorted, List.sorted_singleton t,
        fun x hx y hy => (List.mem_singleton.mp hy) ▸ hBle x hx⟩
    have hW : (0 : ℚ) ≤ ROLLING_WINDOW_SECONDS := by
      norm_num [ROLLING_WINDOW_SECONDS]
    have hkey : incBucket (ds.foldl incBucket []) t
        = (ds.filter fun u => decide (t - ROLLING_WINDOW_SECONDS ≤ u)) ++ [t] := by
      rw [show incBucket (ds.foldl incBucket []) t
          = pruneBucket (t - ROLLING_WINDOW_SECONDS) ((ds.foldl incBucket []) ++ [t])
          from rfl]
      rw [pruneBucket_sorted _ _ hBt, List.filter_append,
        ← pruneBucket_sorted _ _ ihSorted, ihPrune t hle]
      congr 1
      simp only [List.filter_cons, List.filter_nil]
      rw [if_pos (by simp; linarith)]
    have hsorted2 : ((ds.filter fun u => decide (t - ROLLING_WINDOW_SECONDS ≤ u))
        ++ [t]).Sorted (· ≤ ·) := by
      rw [sortedLeAppend]
      exact ⟨hds.filter _, List.sorted_singleton t,
        fun x hx y hy => (List.mem_singleton.mp hy) ▸ hle x (List.mem_of_mem_filter hx)⟩
    refine ⟨?_, ?_, ?_⟩
    · rw [hfold, hkey]
      exact hsorted2
    · intro x hx
      rw [hfold, hkey] at hx
      rcases List.mem_append.mp hx with hx | hx
      · exact List.mem_append_left _ (List.mem_of_mem_filter hx)
      · exact List.mem_append_right _ hx
    · intro now hnow
      have htnow : t ≤ now := hnow t (by simp)
      rw [hfold, hkey, pruneBucket_sorted _ _ hsorted2, List.filter_append,
        filter_cutoff_comp (by linarith) ds, List.filter_append]

/-- Updating a present key is visible to lookup. -/
theorem lookupBucket_set (k : String) (b : List ℚ) :
    ∀ (l : List (String × List ℚ)) (b0 : List ℚ), lookupBucket l k = some b0 →
      lookupBucket (setBucket l k b) k = some b := by
  intro l
  induction l with
  | nil => intro b0 h; simp [lookupBucket] at h
  | cons p rest ih =>
    intro b0 h
    obtain ⟨k1, b1⟩ := p
    by_cases hk : k1 = k
    · simp only [lookupBucket, setBucket, if_pos hk]
    · simp only [lookupBucket, setBucket, if_neg hk] at h ⊢
      exact ih b0 h

/-- Folding `HealthWindow.inc` over timestamps folds `incBucket` on the
bucket stored under the key. -/
theorem window_inc_fold (k : String) :
    ∀ (tss : List ℚ) (w : HealthWindow) (b : List ℚ),
      lookupBucket w.buckets k = some b →
      lookupBucket ((tss.foldl (fun w u => w.inc k u) w).buckets) k
        = some (tss.foldl incBucket b) := by
  intro tss
  induction tss with
  | nil => intro w b h; exact h
  | cons t rest ih =>
    intro w b h
    rw [List.foldl_cons, List.foldl_cons]
    apply ih
    unfold HealthWindow.inc
    rw [h]
    exact lookupBucket_set k (incBucket b t) w.buckets b h

/-- Lookup in a freshly keyed bucket map. -/
theorem lookupBucket_keyed (key : String) :
    ∀ ks : List String,
      lookupBucket (ks.map fun k => (k, ([] : List ℚ))) key
        = if key ∈ ks then some [] else none := by
  intro ks
  induction ks with
  | nil => rfl
  | cons a rest ih =>
    simp only [List.map_cons]
    unfold lookupBucket
    by_cases h : a = key
    · subst h
      simp
    · rw [if_neg h, ih]
      by_cases hm : key ∈ rest
      · rw [if_pos hm, if_pos (List.mem_cons_of_mem a hm)]
      · rw [if_neg hm, if_neg (by
          intro hc
          rcases List.mem_cons.mp hc with hc | hc
          · exact h hc.symm
          · exact hm hc)]

/-- Claim C8 (amended): over a monotone sequence of recorded timestamps and
a query time no earlier than the last of them, `count15m` equals the number
of timestamps within the last 900 seconds; `inc` on a key absent from the
bucket map is a no-op and such keys count zero, and every key outside
`_HEALTH_KEYS` is absent from a fresh window.  (The counterexample shows
the unrestricted claim fails for out-of-order timestamps, because pruning
only pops from the queue front.) -/
theorem c8_window_count_amended :
    (∀ (tss : List ℚ) (key : String) (now : ℚ),
        tss.Sorted (· ≤ ·) → (∀ u ∈ tss, u ≤ now) → key ∈ healthKeys →
        (tss.foldl (fun w u => w.inc key u) HealthWindow.empty).count15m key now
          = (tss.filter fun u => decide (now - ROLLING_WINDOW_SECONDS ≤ u)).length)
    ∧ (∀ (w : HealthWindow) (key : String) (u now : ℚ),
        lookupBucket w.buckets key = none →
        w.inc key u = w ∧ w.count15m key now = 0)
    ∧ (∀ key : String, key ∉ healthKeys →
        lookupBucket HealthWindow.empty.buckets key = none) := by
  refine ⟨?_, ?_, ?_⟩
  · intro tss key now hsorted hlenow hkey
    have hemp : lookupBucket HealthWindow.empty.buckets key = some [] := by
      unfold HealthWindow.empty
      rw [lookupBucket_keyed key healthKeys, if_pos hkey]
    have hfold := window_inc_fold key tss HealthWindow.empty [] hemp
    unfold HealthWindow.count15m
    rw [hfold]
    dsimp only
    unfold countBucket
    rw [(foldInc_spec tss hsorted).2.2 now hlenow]
  · intro w key u now hnone
    constructor
    · unfold HealthWindow.inc
      rw [hnone]
    · unfold HealthWindow.count15m
      rw [hnone]
  · intro key hkey
    unfold HealthWindow.empty
    rw [lookupBucket_keyed key healthKeys, if_neg hkey]

/-- Witness for the amended C8: monotone events at 10, 500 and 1000 queried
at `now = 1000`; the two events inside the window are counted. -/
theorem c8_witness :
    (([10, 500, 1000] : List ℚ).foldl (fun w u => w.inc "decision" u)
        HealthWindow.empty).count15m "decision" 1000
      = (([10, 500, 1000] : List ℚ).filter fun u =>
          decide ((1000 : ℚ) - ROLLING_WINDOW_SECONDS ≤ u)).length
    ∧ (([10, 500, 1000] : List ℚ).filter fun u =>
          decide ((1000 : ℚ) - ROLLING_WINDOW_SECONDS ≤ u)).length = 2 :=
  ⟨c8_window_count_amended.1 [10, 500, 1000] "decision" 1000
      (by decide) (by decide) (by decide),
   by norm_num [ROLLING_WINDOW_SECONDS]⟩

/-- Counterexample for C8 as stated: with out-of-order increments at
timestamps 1000 then 50 and a query at `now = 1000`, the stale event 50 is
behind the fresh front 1000 and is never pruned, so the count is 2 while
only one recorded timestamp lies within `now − 900`. -/
theorem c8_counterexample :
    ((HealthWindow.empty.inc "decision" 1000).inc "decision" 50).count15m
        "decision" 1000 = 2
    ∧ (([1000, 50] : List ℚ).filter fun u =>
        decide ((1000 : ℚ) - ROLLING_WINDOW_SECONDS ≤ u)).length = 1 := by
  constructor
  · norm_num [HealthWindow.inc, HealthWindow.count15m, HealthWindow.empty,
      healthKeys, lookupBucket, setBucket, incBucket, countBucket, pruneBucket,
      ROLLING_WINDOW_SECONDS]
    decide
  · norm_num [ROLLING_WINDOW_SECONDS]
